import Mathlib

/-! Container lifecycle synchronizer of `lib/portlayer/exec/exec.go`.

A shallow embedding of the exec package's event handling: the lifecycle state
machine `eventedState`, the dispatcher `eventCallback`, the publisher
`publishContainerEvent`, the run-once bootstrap `Init` and the blocking wait
`WaitForContainerStop`.  Global variables of the Go package (`Config`,
`Containers`, `initializer`) are threaded explicitly through a `World` value,
which also keeps the cache removals and the publications in the order they
were made; goroutines launched by the dispatcher are returned to the caller,
which runs them with the outcome of the attribute refresh as an input.
`Reachable` collects the package states that the operations produce from the
start state.
-/

namespace exec

/-! ## Data model -/

/-- Modelled from the spec: the `State` type of a container, whose declaration
(container.go) is not among the sources.  The eight constants are the ones
exec.go names; `other` stands for every further value of the Go integer type
(the pre-cache states of container creation). -/
inductive State where
  | StateStarting
  | StateRunning
  | StateStopping
  | StateStopped
  | StateSuspending
  | StateSuspended
  | StateRemoving
  | StateRemoved
  | other (code : Nat)
  deriving DecidableEq, Repr

open State

namespace events

/-- Modelled from the spec: the event kind constant `events.ContainerPoweredOn`
(package events is not among the sources); the spec names the kind `PoweredOn`. -/
def ContainerPoweredOn : String := "PoweredOn"

/-- Modelled from the spec: the event kind constant `events.ContainerPoweredOff`,
named `PoweredOff` by the spec. -/
def ContainerPoweredOff : String := "PoweredOff"

/-- Modelled from the spec: the event kind constant `events.ContainerSuspended`,
named `Suspended` by the spec. -/
def ContainerSuspended : String := "Suspended"

/-- Modelled from the spec: the event kind constant `events.ContainerRemoved`,
named `Removed` by the spec. -/
def ContainerRemoved : String := "Removed"

/-- Modelled from the spec: the event kind constant `events.ContainerStopped`,
named `Stopped` by the spec. -/
def ContainerStopped : String := "Stopped"

/-- Modelled from the spec: `events.BaseEvent`, the payload shared by backend
events and by the published `ContainerEvent` (LifecycleEvent): subject
reference, creation timestamp, kind string and human-readable detail.  The
interface methods `Reference()`, `Created()` and `String()` are the projections
`Ref`, `CreatedTime` and `Event`. -/
structure BaseEvent where
  Ref : String
  CreatedTime : Nat
  Event : String
  Detail : String
  deriving DecidableEq, Repr

end events

open events

/-! ## Lifecycle state machine -/

/-- The target container state for the current state and backend event kind
(`eventedState`, exec.go lines 180-203).  A Go `switch` without fallthrough:
the first matching case is entered, and when its guard fails control leaves the
switch and `current` is returned. -/
def eventedState (e : String) (current : State) : State :=
  if e = ContainerPoweredOn then
    if current ≠ StateStarting then StateRunning else current
  else if e = ContainerPoweredOff then
    if current ≠ StateStopping then StateStopped else current
  else if e = ContainerSuspended then
    if current ≠ StateSuspending then StateSuspended else current
  else if e = ContainerRemoved then
    if current ≠ StateRemoving then StateRemoved else current
  else current

/-! ## Container cache -/

/-- Modelled from the spec: a cached `Container` (container.go is not among the
sources): its identity `ExecConfig.ID`, the owning backend object reference
`vm.Reference().String()`, its lifecycle state and the last-known attribute
snapshot. -/
structure Container where
  ID : String
  vmRef : String
  attrs : Nat
  State : exec.State
  deriving DecidableEq, Repr

/-- A container answers to its ID and to its backend reference. -/
def Container.hasRef (c : Container) (ref : String) : Bool :=
  c.ID == ref || c.vmRef == ref

namespace containerCache

/-- Modelled from the spec: `Containers.Container(idOrRef)`, the cache lookup
`lookup(ref) -> Container|absent` (container_cache.go is not among the
sources).  The cache is the list of its entries, insertion order irrelevant. -/
def Container (cache : List exec.Container) (idOrRef : String) : Option exec.Container :=
  cache.find? (fun c => c.hasRef idOrRef)

/-- Modelled from the spec: `Containers.Remove(id)`, the cache operation
`remove(id)`: the entry of that container ID leaves the cache. -/
def Remove (cache : List exec.Container) (id : String) : List exec.Container :=
  cache.filter (fun c => !(c.ID == id))

/-- The write `container.State = newState` through the pointer that the lookup
of `idOrRef` returned: the entry found by the lookup is updated in place. -/
def setState (idOrRef : String) (newState : State) : List exec.Container → List exec.Container
  | [] => []
  | c :: cs =>
    if c.hasRef idOrRef then { c with State := newState } :: cs
    else c :: setState idOrRef newState cs

/-- Modelled from the spec: the effect of a successful attribute refresh
(`container.Update`) on the cached container: its attribute snapshot is
replaced. -/
def setAttrs (id : String) (attrs : Nat) (cache : List exec.Container) : List exec.Container :=
  cache.map (fun c => if c.ID = id then { c with attrs := attrs } else c)

/-- Cache key discipline of the spec (one entry per ID, keyed by ID and by
backend reference): two entries answering to a common reference carry the same
container ID. -/
def Keyed (cache : List exec.Container) : Prop :=
  ∀ c₁ ∈ cache, ∀ c₂ ∈ cache, ∀ ref : String,
    c₁.hasRef ref = true → c₂.hasRef ref = true → c₁.ID = c₂.ID

end containerCache

/-! ## Event bus -/

/-- The callbacks this package hands to the event manager: the dispatcher
`eventCallback` and the closure `watch` of a `WaitForContainerStop(ctx, id)`
call. -/
inductive Callback where
  | eventCallback
  | watch (id : String)
  deriving DecidableEq, Repr

/-- Modelled from the spec: a `Subscription`: topic, subscriber key and callback. -/
structure Subscription where
  topic : String
  key : String
  callback : Callback
  deriving DecidableEq, Repr

/-- Modelled from the spec: the Event Bus collaborator (package event is not
among the sources): the registered subscriptions, at most one per topic and
key, and the log of the events handed to `Publish`, oldest first. -/
structure EventManager where
  subs : List Subscription
  published : List BaseEvent
  deriving DecidableEq, Repr

namespace EventManager

/-- Modelled from the spec: `event.NewEventManager(collector)`. -/
def NewEventManager : EventManager :=
  { subs := [], published := [] }

/-- Whether a subscription is the one registered under `topic` and `key`. -/
def keyed (topic key : String) (s : Subscription) : Bool :=
  s.topic == topic && s.key == key

/-- Modelled from the spec: `Subscribe(topic, key, callback)`; a subscription
already registered under the same topic and key is replaced. -/
def Subscribe (em : EventManager) (topic key : String) (callback : Callback) : EventManager :=
  { em with subs := ⟨topic, key, callback⟩ :: em.subs.filter (fun s => !(keyed topic key s)) }

/-- Modelled from the spec: `Unsubscribe(topic, key)`. -/
def Unsubscribe (em : EventManager) (topic key : String) : EventManager :=
  { em with subs := em.subs.filter (fun s => !(keyed topic key s)) }

/-- Modelled from the spec: `Publish(event)`; fan-out to the subscribers is the
bus's own business, the model records the published event. -/
def Publish (em : EventManager) (e : BaseEvent) : EventManager :=
  { em with published := em.published ++ [e] }

/-- Whether some subscription is registered under `topic` and `key`. -/
def subscribed (em : EventManager) (topic key : String) : Bool :=
  em.subs.any (keyed topic key)

end EventManager

/-- Modelled from the spec: the topic of `vsphere.VmEvent`,
`events.NewEventType(...).Topic()`,
of the backend events. -/
def VmEventTopic : String := "vsphere.VmEvent"

/-- Modelled from the spec: the topic of `events.ContainerEvent`, on which the
lifecycle events are published. -/
def ContainerEventTopic : String := "events.ContainerEvent"

/-! ## Package state -/

/-- Modelled from the spec: the fields of the package variable `Config` that
exec.go reads or writes (its declaration is not among the sources).  A
reference is kept as its string form `Type:Value`; `Networks` maps a network
name to the network's ID. -/
structure Configuration where
  ComputeResources : List String
  Networks : List (String × String)
  ResourcePool : Option String
  VirtualApp : Option String
  EventManager : Option EventManager
  DebugNetwork : Option String
  VCHMhz : Nat
  VCHMemoryLimit : Nat
  HostOS : String
  HostOSVersion : String
  HostProductName : String
  deriving DecidableEq, Repr

/-- A call that takes an entry out of the cache or hands an event to the bus. -/
inductive Effect where
  | Remove (id : String)
  | Publish (e : BaseEvent)
  deriving DecidableEq, Repr

/-- The package-level variables of exec.go as one value: `initializer` (the
`sync.Once`, true once its function has been run), `Config`, the container
cache `Containers`, the IDs of the containers whose stop-cleanup hook `onStop`
has run, oldest first, and `trace`, the calls of `Containers.Remove` and of
`Config.EventManager.Publish` in the order they were made, oldest first. -/
structure World where
  initializer : Bool
  Config : Configuration
  Containers : List Container
  stopped : List String
  trace : List Effect
  deriving DecidableEq, Repr

/-- What a Go function of type `error` hands back: `nil`, an error, or a panic
that unwinds through it (the text of the runtime error is not kept). -/
inductive Result where
  | nil
  | error (msg : String)
  | panic
  deriving DecidableEq, Repr

/-! ## Publication and dispatch -/

/-- Publishes a ContainerEvent to the event stream (`publishContainerEvent`,
exec.go lines 206-221); nothing happens without an event manager or with an
empty event type. -/
def publishContainerEvent (id : String) (created : Nat) (eventType : String) (w : World) : World :=
  match w.Config.EventManager with
  | none => w
  | some em =>
    if eventType = "" then w
    else
      let ce : BaseEvent :=
        { Ref := id, CreatedTime := created, Event := eventType,
          Detail := "Container " ++ id ++ " " ++ eventType }
      { w with
        Config := { w.Config with EventManager := some (em.Publish ce) },
        trace := w.trace ++ [Effect.Publish ce] }

/-- Modelled from the spec: the stop-cleanup hook `container.onStop()`; the
model records that it ran for the container. -/
def onStop (c : Container) (w : World) : World :=
  { w with stopped := w.stopped ++ [c.ID] }

/-- The goroutine that `eventCallback` launches (exec.go lines 155-165): it
captures the container and the incoming event. -/
structure Goroutine where
  container : String
  ie : BaseEvent
  deriving DecidableEq, Repr

/-- Modelled from the spec: what the Attribute Fetcher `container.Update`
returns within its timeout: a fresh attribute snapshot or an error. -/
inductive UpdateResult where
  | ok (attrs : Nat)
  | failed (msg : String)
  deriving DecidableEq, Repr

/-- Processes one backend event (`eventCallback`, exec.go lines 132-176).  The
result is the world after the synchronous part and the goroutines launched. -/
def eventCallback (ie : BaseEvent) (w : World) : World × List Goroutine :=
  match containerCache.Container w.Containers ie.Ref with
  | none => (w, [])
  | some container =>
    let newState := eventedState ie.Event container.State
    if newState ≠ container.State then
      match newState with
      | StateStopping | StateRunning | StateStopped | StateSuspended =>
        let w₁ := { w with Containers := containerCache.setState ie.Ref newState w.Containers }
        let w₂ := if newState = StateStopped then onStop container w₁ else w₁
        (w₂, [{ container := container.ID, ie := ie }])
      | StateRemoved =>
        let w₁ := { w with
          Containers := containerCache.Remove w.Containers container.ID,
          trace := w.trace ++ [Effect.Remove container.ID] }
        (publishContainerEvent container.ID ie.CreatedTime ie.Event w₁, [])
      | _ => (w, [])
    else (w, [])

/-- The body of the launched goroutine: refresh the container attributes, log a
failure, and publish the container event regardless of the refresh outcome. -/
def runGoroutine (update : UpdateResult) (w : World) (g : Goroutine) : World :=
  let w₁ :=
    match update with
    | UpdateResult.ok attrs =>
      { w with Containers := containerCache.setAttrs g.container attrs w.Containers }
    | UpdateResult.failed _ => w
  publishContainerEvent g.container g.ie.CreatedTime g.ie.Event w₁

/-- One event seen through to the end: the dispatcher runs, then every
goroutine it launched runs to completion with refresh outcome `update`. -/
def dispatch (ie : BaseEvent) (update : UpdateResult) (w : World) : World :=
  let r := eventCallback ie w
  r.2.foldl (runGoroutine update) r.1

/-- The events handed to the event manager so far, oldest first (none when no
event manager is configured). -/
def World.published (w : World) : List BaseEvent :=
  match w.Config.EventManager with
  | none => []
  | some em => em.published

/-- Whether the configured event manager holds a subscription under `topic`
and `key` (none is held when no event manager is configured). -/
def World.subscribed (w : World) (topic key : String) : Bool :=
  match w.Config.EventManager with
  | none => false
  | some em => em.subscribed topic key

/-! ## Blocking wait -/

/-- The closure `watch` of `WaitForContainerStop(ctx, id)` (exec.go lines
229-238): the value it sends on the channel `listen` for the event `ce`, if it
sends one. -/
def watch (id : String) (ce : BaseEvent) : Option String :=
  let event := ce.Event
  if ce.Ref = id then
    if event = ContainerStopped ∨ event = ContainerPoweredOff then some event else none
  else none

/-- The subscriber key `fmt.Sprintf("%s:%s(%d)", id, "watcher", &watch)`, with
`addr` the address of the closure variable. -/
def watcherKey (id : String) (addr : Nat) : String :=
  id ++ ":" ++ "watcher" ++ "(" ++ toString addr ++ ")"

/-- Blocks until the container stops or the context completes
(`WaitForContainerStop`, exec.go lines 223-253).  `addr` is the address of the
closure variable `watch`; `delivered` are the events the bus hands to the
subscription before the context completes with error `ctxErr`: the `select`
takes the `listen` branch when `watch` sends for one of them and the
`ctx.Done()` branch otherwise.  The deferred `Unsubscribe` runs on both
branches. -/
def WaitForContainerStop (id : String) (addr : Nat) (delivered : List BaseEvent)
    (ctxErr : String) (w : World) : Result × World :=
  match w.Config.EventManager with
  | none => (Result.panic, w)
  | some em =>
    let sub := watcherKey id addr
    let topic := ContainerEventTopic
    let em₁ := em.Subscribe topic sub (Callback.watch id)
    let result :=
      match delivered.findSome? (watch id) with
      | some _ => Result.nil
      | none => Result.error ("WaitForContainerStop(" ++ id ++ ") Error: " ++ ctxErr)
    (result, { w with Config := { w.Config with EventManager := some (em₁.Unsubscribe topic sub) } })

/-! ## Bootstrap -/

/-- The dynamic type of an object reference, as far as `Init` tells them apart. -/
inductive RefKind where
  | VirtualApp
  | ResourcePool
  | Network
  | Other
  deriving DecidableEq, Repr

/-- Modelled from the spec: an `object.Reference` resolved by the finder. -/
structure Reference where
  kind : RefKind
  value : String
  deriving DecidableEq, Repr

/-- Modelled from the spec: the collaborators reached through the session: the
finder's `ObjectReference`, the cluster reference, the event collector (its
name and the error of `Start`, if any), the host's `AboutInfo`, the capacity
limits `NCPU` and `MemTotal`, and the backend inventory that `Containers.sync`
reads (or the error of reading it). -/
structure Session where
  ObjectReference : String → Except String Reference
  Cluster : String
  collectorName : String
  collectorStart : Option String
  OsType : String
  Version : String
  Name : String
  NCPU : Nat
  MemTotal : Nat
  inventory : Except String (List Container)

/-- Modelled from the spec: what `extraconfig.Decode` reads from the data
source into `Config`. -/
structure DataSource where
  ComputeResources : List String
  Networks : List (String × String)
  deriving DecidableEq, Repr

/-- One character of a string under the Go verb `%q` (`strconv.Quote`): the
double quote and the backslash are escaped with a backslash, the control
characters are written by name or as a two-digit hexadecimal escape, and every
other character stands for itself (a character beyond ASCII is taken to be
printable).  Characters are given by their code: 34 is the double quote and 92
the backslash. -/
def quoteChar (c : Char) : List Char :=
  let n := c.toNat
  if n = 34 ∨ n = 92 then [Char.ofNat 92, c]
  else if n = 7 then [Char.ofNat 92, 'a']
  else if n = 8 then [Char.ofNat 92, 'b']
  else if n = 12 then [Char.ofNat 92, 'f']
  else if n = 10 then [Char.ofNat 92, 'n']
  else if n = 13 then [Char.ofNat 92, 'r']
  else if n = 9 then [Char.ofNat 92, 't']
  else if n = 11 then [Char.ofNat 92, 'v']
  else if n < 32 ∨ n = 127 then
    [Char.ofNat 92, 'x', Nat.digitChar (n / 16), Nat.digitChar (n % 16)]
  else [c]

/-- The Go verb `%q` on a string: the quoted characters between double quotes. -/
def quote (s : String) : String :=
  String.mk ([Char.ofNat 34] ++ s.toList.flatMap quoteChar ++ [Char.ofNat 34])

/-- Modelled from the spec: a `types.ManagedObjectReference`, a type and a
value; its string form is `Type:Value`. -/
structure ManagedObjectReference where
  Type_ : String
  Value : String
  deriving DecidableEq, Repr

/-- The method `String()` of a managed object reference. -/
def morefString (nr : ManagedObjectReference) : String :=
  nr.Type_ ++ ":" ++ nr.Value

/-- The effect of `nr.FromString(o)` on a new reference: `o` is split at its
first colon; without a colon the reference stays empty. -/
def morefFromString (o : String) : ManagedObjectReference :=
  match o.toList.span (fun c => c ≠ ':') with
  | (t, _ :: v) => { Type_ := String.mk t, Value := String.mk v }
  | (_, []) => { Type_ := "", Value := "" }

/-- The last steps of the function that `Init` hands to `initializer.Do`
(exec.go lines 94-125): the client network for the debug nic, the host
metadata and the cache sync. -/
def initNetwork (sess : Session) (w : World) : Result × World :=
  match w.Config.Networks.lookup "client" with
  | none =>
    (Result.error ("could not get client network reference for debug nic - " ++
      "this code can be removed once network mapping/dhcp client is present"), w)
  | some id =>
    let nr := morefFromString id
    match sess.ObjectReference (morefString nr) with
    | Except.error e =>
      (Result.error ("could not get client network reference from " ++ morefString nr ++
        ": " ++ e), w)
    | Except.ok r =>
      if r.kind ≠ RefKind.Network then (Result.panic, w)
      else
        let w₁ := { w with Config := { w.Config with
          DebugNetwork := some r.value,
          VCHMhz := sess.NCPU,
          VCHMemoryLimit := sess.MemTotal,
          HostOS := sess.OsType,
          HostOSVersion := sess.Version,
          HostProductName := sess.Name } }
        match sess.inventory with
        | Except.error e => (Result.error e, w₁)
        | Except.ok cs => (Result.nil, { w₁ with Containers := cs })

/-- The middle steps of the function handed to `initializer.Do` (exec.go lines
72-92): start the event collector, create the event manager, subscribe
`eventCallback` and instantiate the container cache. -/
def initEvents (sess : Session) (w : World) : Result × World :=
  match sess.collectorStart with
  | some e => (Result.error (sess.collectorName ++ " failed to start: " ++ e), w)
  | none =>
    let em := EventManager.NewEventManager.Subscribe VmEventTopic "exec" Callback.eventCallback
    initNetwork sess
      { w with Config := { w.Config with EventManager := some em }, Containers := [] }

/-- The function that `Init` hands to `initializer.Do` (exec.go lines 39-126);
its result is the value of the captured variable `err` when it returns. -/
def initOnce (sess : Session) (source : DataSource) (w : World) : Result × World :=
  let w₀ := { w with Config := { w.Config with
    ComputeResources := source.ComputeResources, Networks := source.Networks } }
  let ccount := w₀.Config.ComputeResources.length
  if ccount ≠ 1 then
    (Result.error ("expected singular compute resource element, found " ++ toString ccount), w₀)
  else
    match w₀.Config.ComputeResources with
    | [] => (Result.panic, w₀)
    | cr :: _ =>
      match sess.ObjectReference cr with
      | Except.error e =>
        (Result.error ("could not get resource pool or virtual app reference from " ++
          quote cr ++ ": " ++ e), w₀)
      | Except.ok r =>
        match r.kind with
        | RefKind.VirtualApp =>
          initEvents sess { w₀ with Config := { w₀.Config with
            VirtualApp := some r.value, ResourcePool := some r.value } }
        | RefKind.ResourcePool =>
          initEvents sess { w₀ with Config := { w₀.Config with ResourcePool := some r.value } }
        | _ =>
          (Result.error ("could not get resource pool or virtual app from reference " ++
            quote cr ++ ": object type is wrong"), w₀)

/-- Bootstrap of the package (`Init`, exec.go lines 37-129).  `err` is a local
variable of the call, nil at its declaration; `initializer.Do` runs the
function only on the first call, and the call returns `err`. -/
def Init (sess : Session) (source : DataSource) (w : World) : Result × World :=
  if w.initializer then (Result.nil, w)
  else initOnce sess source { w with initializer := true }

/-- A sequence of calls to `Init`, one per session and data source: the
results in call order and the final world. -/
def InitCalls : List (Session × DataSource) → World → List Result × World
  | [], w => ([], w)
  | (sess, source) :: rest, w =>
    let r := Init sess source w
    let rs := InitCalls rest r.2
    (r.1 :: rs.1, rs.2)

/-! ## The states of the package -/

/-- The zero value of `Config`: nothing resolved and no event manager. -/
def emptyConfig : Configuration :=
  { ComputeResources := [], Networks := [], ResourcePool := none, VirtualApp := none,
    EventManager := none, DebugNetwork := none, VCHMhz := 0, VCHMemoryLimit := 0,
    HostOS := "", HostOSVersion := "", HostProductName := "" }

/-- The package state when the program starts, before `Init`. -/
def freshWorld : World :=
  { initializer := false, Config := emptyConfig, Containers := [], stopped := [],
    trace := [] }

/-- The admin-intent states, which operations outside this package set on a
cached container while they drive a transition themselves. -/
def adminIntent (s : State) : Bool :=
  s = StateStarting ∨ s = StateStopping ∨ s = StateSuspending ∨ s = StateRemoving

/-- The package states that can arise: the start state, and from a state that
can arise, the state after a call of `Init` (the backend inventory lists
containers that exist, none of them Removed), after an event handled by
`eventCallback`, after a launched goroutine has run, after a call of
`WaitForContainerStop`, and after an administrative operation has marked a
cached container with an admin-intent state. -/
inductive Reachable : World → Prop where
  | start : Reachable freshWorld
  | init (sess : Session) (source : DataSource) (w : World) :
      Reachable w →
      (∀ cs, sess.inventory = Except.ok cs → ∀ c ∈ cs, c.State ≠ StateRemoved) →
      Reachable (Init sess source w).2
  | event (ie : BaseEvent) (w : World) :
      Reachable w → Reachable (eventCallback ie w).1
  | goroutine (update : UpdateResult) (g : Goroutine) (w : World) :
      Reachable w → Reachable (runGoroutine update w g)
  | wait (id : String) (addr : Nat) (delivered : List BaseEvent) (ctxErr : String)
      (w : World) :
      Reachable w → Reachable (WaitForContainerStop id addr delivered ctxErr w).2
  | admin (idOrRef : String) (s : State) (w : World) :
      Reachable w → adminIntent s = true →
      Reachable { w with Containers := containerCache.setState idOrRef s w.Containers }

/-- What every state that can arise satisfies: a cache with entries has an
event manager beside it (`Init` sets `Config.EventManager` before it creates
and fills the cache), and no cached container is marked Removed. -/
def Consistent (w : World) : Prop :=
  (w.Config.EventManager = none → w.Containers = []) ∧
  (∀ c ∈ w.Containers, c.State ≠ StateRemoved)

/-! ## Sample inputs -/

/-- A running container `c1` backed by the virtual machine `vm-1`. -/
def sampleContainer : Container :=
  { ID := "c1", vmRef := "vm-1", attrs := 0, State := StateRunning }

/-- A bootstrapped world tracking `sampleContainer`, the dispatcher subscribed. -/
def sampleWorld : World :=
  { initializer := true,
    Config := { emptyConfig with
      EventManager := some
        (EventManager.NewEventManager.Subscribe VmEventTopic "exec" Callback.eventCallback) },
    Containers := [sampleContainer],
    stopped := [],
    trace := [] }

/-- A backend event of the given kind for the virtual machine `vm-1`. -/
def sampleEvent (kind : String) : BaseEvent :=
  { Ref := "vm-1", CreatedTime := 42, Event := kind, Detail := "" }

/-- A backend event for a virtual machine that no cached container answers to. -/
def strayEvent : BaseEvent :=
  { Ref := "vm-9", CreatedTime := 43, Event := ContainerPoweredOff, Detail := "" }

/-- The lifecycle event published for `c1` on the backend event `sampleEvent kind`. -/
def sampleLifecycleEvent (kind : String) : BaseEvent :=
  { Ref := "c1", CreatedTime := 42, Event := kind, Detail := "Container c1 " ++ kind }

/-- A backend whose finder knows the resource pool `pool-1` and the network
`network-1`, whose collector starts, and whose inventory holds `c1`. -/
def sampleSession : Session :=
  { ObjectReference := fun ref =>
      if ref = "ResourcePool:pool-1" then
        Except.ok { kind := RefKind.ResourcePool, value := "ResourcePool:pool-1" }
      else if ref = "Network:network-1" then
        Except.ok { kind := RefKind.Network, value := "Network:network-1" }
      else Except.error "not found",
    Cluster := "cluster-1",
    collectorName := "vSphere Event Collector",
    collectorStart := none,
    OsType := "vmnix-x86", Version := "6.0.0", Name := "VMware ESXi",
    NCPU := 2400, MemTotal := 4096,
    inventory := Except.ok [sampleContainer] }

/-- A configuration source naming two compute resources. -/
def twoPoolSource : DataSource :=
  { ComputeResources := ["ResourcePool:pool-1", "ResourcePool:pool-2"],
    Networks := [("client", "Network:network-1")] }

/-- A configuration source naming the single compute resource `pool-1`. -/
def onePoolSource : DataSource :=
  { ComputeResources := ["ResourcePool:pool-1"],
    Networks := [("client", "Network:network-1")] }

/-- The package state after a successful first `Init` against `sampleSession`:
the dispatcher is subscribed and the cache holds `sampleContainer`. -/
def bootedWorld : World :=
  (Init sampleSession onePoolSource freshWorld).2

/-! ## The state machine -/

/-- Either the state machine leaves the state alone, or the event is one of
the four backend kinds and the result is that kind's target state. -/
theorem eventedState_cases (e : String) (current : State) :
    eventedState e current = current ∨
    (e = ContainerPoweredOn ∧ eventedState e current = StateRunning) ∨
    (e = ContainerPoweredOff ∧ eventedState e current = StateStopped) ∨
    (e = ContainerSuspended ∧ eventedState e current = StateSuspended) ∨
    (e = ContainerRemoved ∧ eventedState e current = StateRemoved) := by
  unfold eventedState
  split_ifs <;> simp_all

/-- C1: for each of the four backend event kinds and every current state other
than the kind's guard state, `eventedState` returns the kind's target state:
PoweredOn gives Running unless Starting, PoweredOff gives Stopped unless
Stopping, Suspended gives Suspended unless Suspending, Removed gives Removed
unless Removing; a current state equal to the target is included. -/
theorem eventedState_transition (current : State) :
    (current ≠ StateStarting → eventedState ContainerPoweredOn current = StateRunning) ∧
    (current ≠ StateStopping → eventedState ContainerPoweredOff current = StateStopped) ∧
    (current ≠ StateSuspending → eventedState ContainerSuspended current = StateSuspended) ∧
    (current ≠ StateRemoving → eventedState ContainerRemoved current = StateRemoved) := by
  refine ⟨?_, ?_, ?_, ?_⟩ <;> intro h <;>
    simp [eventedState, ContainerPoweredOn, ContainerPoweredOff, ContainerSuspended,
      ContainerRemoved, h]

/-- C1 at the current state Running, which is the target of PoweredOn and no
guard state: the four events lead to Running, Stopped, Suspended and Removed. -/
theorem eventedState_transition_witness :
    eventedState ContainerPoweredOn StateRunning = StateRunning ∧
    eventedState ContainerPoweredOff StateRunning = StateStopped ∧
    eventedState ContainerSuspended StateRunning = StateSuspended ∧
    eventedState ContainerRemoved StateRunning = StateRemoved :=
  ⟨(eventedState_transition StateRunning).1 (by decide),
   (eventedState_transition StateRunning).2.1 (by decide),
   (eventedState_transition StateRunning).2.2.1 (by decide),
   (eventedState_transition StateRunning).2.2.2 (by decide)⟩

/-- C2: in the admin-intent state matching the incoming event, `eventedState`
returns the current state unchanged. -/
theorem eventedState_guard :
    eventedState ContainerPoweredOn StateStarting = StateStarting ∧
    eventedState ContainerPoweredOff StateStopping = StateStopping ∧
    eventedState ContainerSuspended StateSuspending = StateSuspending ∧
    eventedState ContainerRemoved StateRemoving = StateRemoving := by
  decide

/-- C10: for every event kind string other than PoweredOn, PoweredOff,
Suspended and Removed, and every current state, `eventedState` returns the
current state unchanged. -/
theorem eventedState_unrecognized (e : String) (current : State)
    (hOn : e ≠ ContainerPoweredOn) (hOff : e ≠ ContainerPoweredOff)
    (hSusp : e ≠ ContainerSuspended) (hRem : e ≠ ContainerRemoved) :
    eventedState e current = current := by
  simp [eventedState, hOn, hOff, hSusp, hRem]

/-- C10 at the event kind `Created` and the state Stopped. -/
theorem eventedState_unrecognized_witness :
    eventedState "Created" StateStopped = StateStopped :=
  eventedState_unrecognized "Created" StateStopped (by decide) (by decide) (by decide)
    (by decide)

/-! ## The dispatcher -/

/-- C5: when `eventedState` returns the tracked container's current state,
`eventCallback` does nothing: the world (container state, cache, stop-hook
record, published events) is the one before and no goroutine is launched. -/
theorem eventCallback_same_state (ie : BaseEvent) (w : World) (container : Container)
    (hc : containerCache.Container w.Containers ie.Ref = some container)
    (hs : eventedState ie.Event container.State = container.State) :
    eventCallback ie w = (w, []) := by
  simp [eventCallback, hc, hs]

/-- C5 at a PoweredOn event for the running container of `sampleWorld`. -/
theorem eventCallback_same_state_witness :
    eventCallback (sampleEvent ContainerPoweredOn) sampleWorld = (sampleWorld, []) :=
  eventCallback_same_state (sampleEvent ContainerPoweredOn) sampleWorld sampleContainer
    (by decide) (by decide)

/-! ## Cache and publication lemmas -/

/-- Under the cache key discipline, once the entry found for a reference is
removed by its ID, the reference finds nothing. -/
theorem Container_after_Remove (cache : List Container) (ref : String)
    (c : Container) (hk : containerCache.Keyed cache)
    (hc : containerCache.Container cache ref = some c) :
    containerCache.Container (containerCache.Remove cache c.ID) ref = none := by
  unfold containerCache.Container at hc ⊢
  have hcm : c ∈ cache := List.mem_of_find?_eq_some hc
  have hcp : c.hasRef ref = true := by
    have h := @List.find?_some _ (fun x : Container => x.hasRef ref) c cache hc
    simpa using h
  rw [List.find?_eq_none]
  intro x hx hp
  simp only [containerCache.Remove, List.mem_filter, Bool.not_eq_true', beq_eq_false_iff_ne,
    ne_eq] at hx
  exact hx.2 (hk x hx.1 c hcm ref hp hcp)

/-- No entry of the cache carries the removed ID. -/
theorem Remove_not_mem (cache : List Container) (id : String) :
    ∀ c ∈ containerCache.Remove cache id, c.ID ≠ id := by
  intro c hc
  simp only [containerCache.Remove, List.mem_filter, Bool.not_eq_true', beq_eq_false_iff_ne,
    ne_eq] at hc
  exact hc.2

/-- With an event manager and a non-empty event type, `publishContainerEvent`
hands exactly one event to `Publish`. -/
theorem publishContainerEvent_some (id : String) (created : Nat) (eventType : String)
    (w : World) (em : EventManager) (hem : w.Config.EventManager = some em)
    (hne : eventType ≠ "") :
    publishContainerEvent id created eventType w =
      { w with
        Config := { w.Config with EventManager := some (em.Publish
          { Ref := id, CreatedTime := created, Event := eventType,
            Detail := "Container " ++ id ++ " " ++ eventType }) },
        trace := w.trace ++ [Effect.Publish
          { Ref := id, CreatedTime := created, Event := eventType,
            Detail := "Container " ++ id ++ " " ++ eventType }] } := by
  simp [publishContainerEvent, hem, hne]

/-- Without an event manager `publishContainerEvent` changes nothing. -/
theorem publishContainerEvent_none (id : String) (created : Nat) (eventType : String)
    (w : World) (hem : w.Config.EventManager = none) :
    publishContainerEvent id created eventType w = w := by
  simp [publishContainerEvent, hem]

/-- Publication touches neither the cache nor the stop-hook record. -/
theorem publishContainerEvent_frame (id : String) (created : Nat) (eventType : String)
    (w : World) :
    (publishContainerEvent id created eventType w).Containers = w.Containers ∧
    (publishContainerEvent id created eventType w).stopped = w.stopped := by
  unfold publishContainerEvent
  split
  · exact ⟨rfl, rfl⟩
  · split <;> exact ⟨rfl, rfl⟩

/-- Publication neither installs nor takes away the event manager. -/
theorem publishContainerEvent_bus (id : String) (created : Nat) (eventType : String)
    (w : World) :
    (publishContainerEvent id created eventType w).Config.EventManager = none ↔
      w.Config.EventManager = none := by
  unfold publishContainerEvent
  split
  · rfl
  · rename_i em hem
    split <;> simp [hem]

/-- What `eventCallback` does with a Removed event for a tracked container that
is neither being removed nor marked removed: the entry leaves the cache, then
the event is published, and no goroutine is launched. -/
theorem eventCallback_Removed_eq (ie : BaseEvent) (w : World) (c : Container)
    (hc : containerCache.Container w.Containers ie.Ref = some c)
    (he : ie.Event = ContainerRemoved)
    (hRemoving : c.State ≠ StateRemoving) (hRemoved : c.State ≠ StateRemoved) :
    eventCallback ie w =
      (publishContainerEvent c.ID ie.CreatedTime ContainerRemoved
        { w with
          Containers := containerCache.Remove w.Containers c.ID,
          trace := w.trace ++ [Effect.Remove c.ID] }, []) := by
  have hs : eventedState ContainerRemoved c.State = StateRemoved := by
    simp [eventedState, ContainerPoweredOn, ContainerPoweredOff, ContainerSuspended,
      ContainerRemoved, hRemoving]
  have hne : ¬ (StateRemoved = c.State) := fun h => hRemoved h.symm
  simp [eventCallback, hc, hs, hne, he]

/-- A cache with a single entry obeys the key discipline. -/
theorem Keyed_singleton (c : Container) : containerCache.Keyed [c] := by
  intro c₁ h₁ c₂ h₂ ref _ _
  simp only [List.mem_singleton] at h₁ h₂
  rw [h₁, h₂]

/-- A state change seen through to the end, with an event manager configured:
the event manager has been handed exactly the container event of the change,
whatever the outcome of the attribute refresh. -/
theorem dispatch_EventManager (ie : BaseEvent) (w : World) (c : Container)
    (em : EventManager) (update : UpdateResult)
    (hem : w.Config.EventManager = some em)
    (hc : containerCache.Container w.Containers ie.Ref = some c)
    (hne : eventedState ie.Event c.State ≠ c.State) :
    (dispatch ie update w).Config.EventManager = some (em.Publish
      { Ref := c.ID, CreatedTime := ie.CreatedTime, Event := ie.Event,
        Detail := "Container " ++ c.ID ++ " " ++ ie.Event }) := by
  rcases eventedState_cases ie.Event c.State with h | ⟨he, hs⟩ | ⟨he, hs⟩ | ⟨he, hs⟩ | ⟨he, hs⟩
  · exact absurd h hne
  all_goals
    rw [hs] at hne
    have hk : ie.Event ≠ "" := by rw [he]; decide
    cases update <;>
      simp [dispatch, eventCallback, hc, hs, hne, runGoroutine, publishContainerEvent, hem, hk,
        onStop]

/-! ## The states that can arise -/

/-- Consistency reads only the event manager and the cache. -/
theorem Consistent_congr (w w' : World)
    (hb : w'.Config.EventManager = none → w.Config.EventManager = none)
    (hc : w'.Containers = w.Containers) (h : Consistent w) : Consistent w' :=
  ⟨fun hn => by rw [hc]; exact h.1 (hb hn), by rw [hc]; exact h.2⟩

/-- Beside an event manager, a cache without Removed entries is consistent. -/
theorem Consistent_of_bus (w : World) (hb : w.Config.EventManager ≠ none)
    (hs : ∀ c ∈ w.Containers, c.State ≠ StateRemoved) : Consistent w :=
  ⟨fun hn => absurd hn hb, hs⟩

/-- In a consistent state a tracked container has an event manager beside it
and is not marked Removed. -/
theorem Consistent_tracked (w : World) (h : Consistent w) (ref : String) (c : Container)
    (hc : containerCache.Container w.Containers ref = some c) :
    (∃ em, w.Config.EventManager = some em) ∧ c.State ≠ StateRemoved := by
  have hcm : c ∈ w.Containers := List.mem_of_find?_eq_some hc
  refine ⟨?_, h.2 c hcm⟩
  cases hem : w.Config.EventManager with
  | some em => exact ⟨em, rfl⟩
  | none =>
    rw [h.1 hem] at hcm
    simp at hcm

/-- Writing a state other than Removed into a cache without Removed entries
leaves it without Removed entries. -/
theorem setState_states (ref : String) (s : State) (hs : s ≠ StateRemoved)
    (cache : List Container) (h : ∀ c ∈ cache, c.State ≠ StateRemoved) :
    ∀ c ∈ containerCache.setState ref s cache, c.State ≠ StateRemoved := by
  induction cache with
  | nil => intro c hc; simp [containerCache.setState] at hc
  | cons x xs ih =>
    intro c hc
    unfold containerCache.setState at hc
    split at hc
    · rcases List.mem_cons.mp hc with rfl | hm
      · exact hs
      · exact h c (List.mem_cons_of_mem _ hm)
    · rcases List.mem_cons.mp hc with rfl | hm
      · exact h c (List.mem_cons_self _ _)
      · exact ih (fun d hd => h d (List.mem_cons_of_mem _ hd)) c hm

/-- An attribute refresh leaves the states of the cached containers alone. -/
theorem setAttrs_states (id : String) (attrs : Nat) (cache : List Container)
    (h : ∀ c ∈ cache, c.State ≠ StateRemoved) :
    ∀ c ∈ containerCache.setAttrs id attrs cache, c.State ≠ StateRemoved := by
  intro c hc
  simp only [containerCache.setAttrs, List.mem_map] at hc
  obtain ⟨d, hd, rfl⟩ := hc
  split
  · exact h d hd
  · exact h d hd

/-- `eventCallback` neither installs nor takes away the event manager. -/
theorem eventCallback_bus (ie : BaseEvent) (w : World) :
    (eventCallback ie w).1.Config.EventManager = none ↔ w.Config.EventManager = none := by
  unfold eventCallback
  cases containerCache.Container w.Containers ie.Ref with
  | none => rfl
  | some c =>
    dsimp only
    split
    · split
      all_goals first
        | rfl
        | exact publishContainerEvent_bus _ _ _ _
        | (split <;> rfl)
    · rfl

/-- `eventCallback` never leaves a Removed entry in the cache. -/
theorem eventCallback_states (ie : BaseEvent) (w : World)
    (h : ∀ c ∈ w.Containers, c.State ≠ StateRemoved) :
    ∀ c ∈ (eventCallback ie w).1.Containers, c.State ≠ StateRemoved := by
  unfold eventCallback
  cases containerCache.Container w.Containers ie.Ref with
  | none => exact h
  | some c =>
    dsimp only
    split
    · split
      · rename_i heq
        split <;> exact setState_states _ _ (by rw [heq]; decide) _ h
      · rename_i heq
        split <;> exact setState_states _ _ (by rw [heq]; decide) _ h
      · rename_i heq
        split <;> exact setState_states _ _ (by rw [heq]; decide) _ h
      · rename_i heq
        split <;> exact setState_states _ _ (by rw [heq]; decide) _ h
      · rw [(publishContainerEvent_frame _ _ _ _).1]
        intro d hd
        simp only [containerCache.Remove, List.mem_filter] at hd
        exact h d hd.1
      · exact h
    · exact h

/-- `eventCallback` keeps a consistent state consistent. -/
theorem eventCallback_Consistent (ie : BaseEvent) (w : World) (h : Consistent w) :
    Consistent (eventCallback ie w).1 := by
  refine ⟨fun hn => ?_, eventCallback_states ie w h.2⟩
  have hw : w.Config.EventManager = none := (eventCallback_bus ie w).mp hn
  have hc : containerCache.Container w.Containers ie.Ref = none := by
    rw [h.1 hw]; rfl
  have he : eventCallback ie w = (w, []) := by simp [eventCallback, hc]
  rw [he]
  exact h.1 hw

/-- A goroutine launched by the dispatcher keeps a consistent state consistent. -/
theorem runGoroutine_Consistent (update : UpdateResult) (g : Goroutine) (w : World)
    (h : Consistent w) : Consistent (runGoroutine update w g) := by
  unfold runGoroutine
  cases update with
  | ok attrs =>
    refine ⟨fun hn => ?_, ?_⟩
    · rw [(publishContainerEvent_frame _ _ _ _).1]
      have hw := (publishContainerEvent_bus _ _ _ _).mp hn
      have hc : w.Containers = [] := h.1 hw
      simp [containerCache.setAttrs, hc]
    · rw [(publishContainerEvent_frame _ _ _ _).1]
      exact setAttrs_states _ _ _ h.2
  | failed msg =>
    refine ⟨fun hn => ?_, ?_⟩
    · rw [(publishContainerEvent_frame _ _ _ _).1]
      exact h.1 ((publishContainerEvent_bus _ _ _ _).mp hn)
    · rw [(publishContainerEvent_frame _ _ _ _).1]
      exact h.2

/-- `WaitForContainerStop` keeps a consistent state consistent. -/
theorem WaitForContainerStop_Consistent (id : String) (addr : Nat)
    (delivered : List BaseEvent) (ctxErr : String) (w : World) (h : Consistent w) :
    Consistent (WaitForContainerStop id addr delivered ctxErr w).2 := by
  unfold WaitForContainerStop
  split
  · exact h
  · exact Consistent_of_bus _ (by simp) h.2

/-- The tail of the function handed to `initializer.Do` keeps the event manager
and either keeps the cache or fills it from the inventory. -/
theorem initNetwork_result (sess : Session) (w : World) :
    (initNetwork sess w).2.Config.EventManager = w.Config.EventManager ∧
    ((initNetwork sess w).2.Containers = w.Containers ∨
      sess.inventory = Except.ok (initNetwork sess w).2.Containers) := by
  unfold initNetwork
  split
  · exact ⟨rfl, Or.inl rfl⟩
  · dsimp only
    split
    · exact ⟨rfl, Or.inl rfl⟩
    · split
      · exact ⟨rfl, Or.inl rfl⟩
      · split
        · exact ⟨rfl, Or.inl rfl⟩
        · rename_i heq
          exact ⟨rfl, Or.inr heq⟩

/-- The tail of the function handed to `initializer.Do`, run beside an event
manager, ends in a consistent state. -/
theorem initNetwork_Consistent (sess : Session) (w : World)
    (hinv : ∀ cs, sess.inventory = Except.ok cs → ∀ c ∈ cs, c.State ≠ StateRemoved)
    (hb : w.Config.EventManager ≠ none) (hs : ∀ c ∈ w.Containers, c.State ≠ StateRemoved) :
    Consistent (initNetwork sess w).2 := by
  obtain ⟨hbus, hcs⟩ := initNetwork_result sess w
  refine Consistent_of_bus _ (by rw [hbus]; exact hb) ?_
  rcases hcs with hc | hc
  · rw [hc]; exact hs
  · exact hinv _ hc

/-- The middle of the function handed to `initializer.Do` keeps a consistent
state consistent. -/
theorem initEvents_Consistent (sess : Session) (w : World)
    (hinv : ∀ cs, sess.inventory = Except.ok cs → ∀ c ∈ cs, c.State ≠ StateRemoved)
    (h : Consistent w) : Consistent (initEvents sess w).2 := by
  unfold initEvents
  split
  · exact h
  · exact initNetwork_Consistent sess _ hinv (by simp) (by simp)

/-- The function handed to `initializer.Do` keeps a consistent state
consistent. -/
theorem initOnce_Consistent (sess : Session) (source : DataSource) (w : World)
    (hinv : ∀ cs, sess.inventory = Except.ok cs → ∀ c ∈ cs, c.State ≠ StateRemoved)
    (h : Consistent w) : Consistent (initOnce sess source w).2 := by
  unfold initOnce
  dsimp only
  split
  · exact Consistent_congr w _ id rfl h
  · split
    · exact Consistent_congr w _ id rfl h
    · split
      · exact Consistent_congr w _ id rfl h
      · split
        · exact initEvents_Consistent sess _ hinv (Consistent_congr w _ id rfl h)
        · exact initEvents_Consistent sess _ hinv (Consistent_congr w _ id rfl h)
        · exact Consistent_congr w _ id rfl h

/-- `Init` keeps a consistent state consistent. -/
theorem Init_Consistent (sess : Session) (source : DataSource) (w : World)
    (hinv : ∀ cs, sess.inventory = Except.ok cs → ∀ c ∈ cs, c.State ≠ StateRemoved)
    (h : Consistent w) : Consistent (Init sess source w).2 := by
  unfold Init
  split
  · exact h
  · exact initOnce_Consistent sess source _ hinv (Consistent_congr w _ id rfl h)

/-- Every state that can arise is consistent. -/
theorem Reachable_Consistent (w : World) (hr : Reachable w) : Consistent w := by
  induction hr with
  | start => exact ⟨fun _ => rfl, fun c hc => by simp [freshWorld] at hc⟩
  | init sess source w _ hinv ih => exact Init_Consistent sess source w hinv ih
  | event ie w _ ih => exact eventCallback_Consistent ie w ih
  | goroutine update g w _ ih => exact runGoroutine_Consistent update g w ih
  | wait id addr delivered ctxErr w _ ih =>
    exact WaitForContainerStop_Consistent id addr delivered ctxErr w ih
  | admin idOrRef s w _ hs ih =>
    refine ⟨fun hn => ?_, ?_⟩
    · have hc : w.Containers = [] := ih.1 hn
      simp [hc, containerCache.setState]
    · refine setState_states idOrRef s ?_ _ ih.2
      intro hrem
      rw [hrem] at hs
      simp [adminIntent] at hs

/-- The sample inventory lists no Removed container. -/
theorem sampleSession_inventory :
    ∀ cs, sampleSession.inventory = Except.ok cs → ∀ c ∈ cs, c.State ≠ StateRemoved := by
  intro cs h c hc
  simp only [sampleSession, Except.ok.injEq] at h
  subst h
  simp only [List.mem_singleton] at hc
  subst hc
  decide

/-- The booted sample state can arise: it is the start state after `Init`. -/
theorem bootedWorld_Reachable : Reachable bootedWorld :=
  Reachable.init sampleSession onePoolSource freshWorld Reachable.start
    sampleSession_inventory

/-- C7: an event whose subject reference has no entry in the container cache
is dropped by `eventCallback`: the world (cache, published events) is unchanged
and nothing is launched.  In particular, in a cache obeying the key discipline,
after a Removed event has removed a container, the same reference finds nothing
and a second Removed event for it is such a no-op. -/
theorem eventCallback_untracked (ie : BaseEvent) (w : World) :
    (containerCache.Container w.Containers ie.Ref = none → eventCallback ie w = (w, [])) ∧
    (∀ c : Container, containerCache.Keyed w.Containers →
      containerCache.Container w.Containers ie.Ref = some c →
      ie.Event = ContainerRemoved → c.State ≠ StateRemoving → c.State ≠ StateRemoved →
      containerCache.Container (eventCallback ie w).1.Containers ie.Ref = none ∧
      eventCallback ie (eventCallback ie w).1 = ((eventCallback ie w).1, [])) := by
  have miss : ∀ v : World, containerCache.Container v.Containers ie.Ref = none →
      eventCallback ie v = (v, []) := by
    intro v h
    simp [eventCallback, h]
  refine ⟨miss w, ?_⟩
  intro c hk hc he hRemoving hRemoved
  have hgone : containerCache.Container (eventCallback ie w).1.Containers ie.Ref = none := by
    rw [eventCallback_Removed_eq ie w c hc he hRemoving hRemoved]
    simp only [(publishContainerEvent_frame _ _ _ _).1]
    exact Container_after_Remove w.Containers ie.Ref c hk hc
  exact ⟨hgone, miss _ hgone⟩

/-- C7 at a PoweredOff event for the untracked `vm-9`, and at two Removed
events in a row for the tracked `vm-1`. -/
theorem eventCallback_untracked_witness :
    eventCallback strayEvent sampleWorld = (sampleWorld, []) ∧
    (containerCache.Container
        (eventCallback (sampleEvent ContainerRemoved) sampleWorld).1.Containers "vm-1" = none ∧
      eventCallback (sampleEvent ContainerRemoved)
          (eventCallback (sampleEvent ContainerRemoved) sampleWorld).1 =
        ((eventCallback (sampleEvent ContainerRemoved) sampleWorld).1, [])) :=
  ⟨(eventCallback_untracked strayEvent sampleWorld).1 (by decide),
   (eventCallback_untracked (sampleEvent ContainerRemoved) sampleWorld).2 sampleContainer
     (Keyed_singleton sampleContainer) (by decide) rfl (by decide) (by decide)⟩

/-- C6: for every tracked container whose state is not Removing, a Removed
event delivered to `eventCallback` removes the container's ID from the cache
and then publishes the corresponding LifecycleEvent (the trace grows by the
removal followed by the publication), without invoking the attribute refresh
(no goroutine is launched); afterwards no cache entry carries that ID.  The
package state is any state that can arise. -/
theorem eventCallback_Removed (w : World) (hr : Reachable w) (ie : BaseEvent)
    (c : Container)
    (hc : containerCache.Container w.Containers ie.Ref = some c)
    (he : ie.Event = ContainerRemoved)
    (hRemoving : c.State ≠ StateRemoving) :
    (eventCallback ie w).1.trace = w.trace ++
      [Effect.Remove c.ID,
       Effect.Publish { Ref := c.ID, CreatedTime := ie.CreatedTime, Event := ContainerRemoved,
                        Detail := "Container " ++ c.ID ++ " " ++ ContainerRemoved }] ∧
    (eventCallback ie w).1.Containers = containerCache.Remove w.Containers c.ID ∧
    (∀ c' ∈ (eventCallback ie w).1.Containers, c'.ID ≠ c.ID) ∧
    (eventCallback ie w).1.published = w.published ++
      [{ Ref := c.ID, CreatedTime := ie.CreatedTime, Event := ContainerRemoved,
         Detail := "Container " ++ c.ID ++ " " ++ ContainerRemoved }] ∧
    (eventCallback ie w).2 = [] ∧
    (eventCallback ie w).1.stopped = w.stopped := by
  obtain ⟨⟨em, hem⟩, hRemoved⟩ := Consistent_tracked w (Reachable_Consistent w hr) ie.Ref c hc
  have heq := eventCallback_Removed_eq ie w c hc he hRemoving hRemoved
  have hw : ({ w with
      Containers := containerCache.Remove w.Containers c.ID,
      trace := w.trace ++ [Effect.Remove c.ID] } : World).Config.EventManager = some em := hem
  rw [publishContainerEvent_some _ _ _ _ em hw (by decide : ContainerRemoved ≠ "")] at heq
  rw [heq]
  refine ⟨?_, rfl, ?_, ?_, rfl, rfl⟩
  · simp
  · exact Remove_not_mem w.Containers c.ID
  · simp [World.published, hem, EventManager.Publish]

/-- C6 at a Removed event for the running container of `bootedWorld`: the trace
holds the removal and then the publication, the cache is empty afterwards and
no goroutine was launched. -/
theorem eventCallback_Removed_witness :
    (eventCallback (sampleEvent ContainerRemoved) bootedWorld).1.trace =
      [Effect.Remove "c1", Effect.Publish (sampleLifecycleEvent ContainerRemoved)] ∧
    (eventCallback (sampleEvent ContainerRemoved) bootedWorld).1.Containers = [] ∧
    (eventCallback (sampleEvent ContainerRemoved) bootedWorld).1.published =
      [sampleLifecycleEvent ContainerRemoved] ∧
    (eventCallback (sampleEvent ContainerRemoved) bootedWorld).2 = [] :=
  have h := eventCallback_Removed bootedWorld bootedWorld_Reachable
    (sampleEvent ContainerRemoved) sampleContainer (by decide) rfl (by decide)
  ⟨h.1, h.2.1.trans (by decide), h.2.2.2.1, h.2.2.2.2.1⟩

/-- C4: for every event delivered to `eventCallback` for a tracked container,
if `eventedState` yields a state different from the container's current state,
then exactly one LifecycleEvent is published for the transition, whether the
attribute refresh succeeds or fails: once the dispatcher and the goroutine it
launched have run, the log of published events has grown by the one event
carrying the container's ID, the original event's timestamp and its kind
string, and the trace holds that one publication.  The package state is any
state that can arise. -/
theorem dispatch_publishes (w : World) (hr : Reachable w) (ie : BaseEvent)
    (c : Container) (update : UpdateResult)
    (hc : containerCache.Container w.Containers ie.Ref = some c)
    (hne : eventedState ie.Event c.State ≠ c.State) :
    (dispatch ie update w).published = w.published ++
      [{ Ref := c.ID, CreatedTime := ie.CreatedTime, Event := ie.Event,
         Detail := "Container " ++ c.ID ++ " " ++ ie.Event }] ∧
    ((dispatch ie update w).trace.drop w.trace.length).filter
        (fun e => e matches Effect.Publish _) =
      [Effect.Publish { Ref := c.ID, CreatedTime := ie.CreatedTime, Event := ie.Event,
                        Detail := "Container " ++ c.ID ++ " " ++ ie.Event }] := by
  obtain ⟨⟨em, hem⟩, -⟩ := Consistent_tracked w (Reachable_Consistent w hr) ie.Ref c hc
  refine ⟨?_, ?_⟩
  · have h := dispatch_EventManager ie w c em update hem hc hne
    simp [World.published, h, hem, EventManager.Publish]
  · rcases eventedState_cases ie.Event c.State with
      h | ⟨he, hs⟩ | ⟨he, hs⟩ | ⟨he, hs⟩ | ⟨he, hs⟩
    · exact absurd h hne
    all_goals
      rw [hs] at hne
      have hk : ie.Event ≠ "" := by rw [he]; decide
      cases update <;>
        simp [dispatch, eventCallback, hc, hs, hne, runGoroutine, publishContainerEvent, hem,
          hk, onStop]

/-- C4 at a PoweredOff event for the running container of `bootedWorld`, with a
failing attribute refresh. -/
theorem dispatch_publishes_witness :
    (dispatch (sampleEvent ContainerPoweredOff) (UpdateResult.failed "timeout")
      bootedWorld).published = [sampleLifecycleEvent ContainerPoweredOff] :=
  (dispatch_publishes bootedWorld bootedWorld_Reachable (sampleEvent ContainerPoweredOff)
    sampleContainer (UpdateResult.failed "timeout") (by decide) (by decide)).1

/-! ## The blocking wait -/

/-- The closure `watch` sends exactly for the events of its container whose
kind is Stopped or PoweredOff. -/
theorem watch_isSome (id : String) (ce : BaseEvent) :
    (watch id ce).isSome = true ↔
      ce.Ref = id ∧ (ce.Event = ContainerStopped ∨ ce.Event = ContainerPoweredOff) := by
  unfold watch
  by_cases h₁ : ce.Ref = id <;>
    by_cases h₂ : ce.Event = ContainerStopped ∨ ce.Event = ContainerPoweredOff <;>
    simp [h₁, h₂]

/-- C8: the closure `watch` registered by `WaitForContainerStop(ctx, id)`
signals on `listen` for an event if and only if the event's subject reference
equals `id` and its kind is Stopped or PoweredOff, and ignores every other
event.  The LifecycleEvent that the dispatcher publishes when a running
container receives a PoweredOff event is one it signals for. -/
theorem watch_signals (id : String) (ce : BaseEvent) :
    ((watch id ce).isSome = true ↔
      ce.Ref = id ∧ (ce.Event = ContainerStopped ∨ ce.Event = ContainerPoweredOff)) ∧
    (¬ (ce.Ref = id ∧ (ce.Event = ContainerStopped ∨ ce.Event = ContainerPoweredOff)) →
      watch id ce = none) ∧
    (∀ (ie : BaseEvent) (w : World) (c : Container) (em : EventManager) (update : UpdateResult),
      w.Config.EventManager = some em →
      containerCache.Container w.Containers ie.Ref = some c →
      c.ID = id → c.State = StateRunning → ie.Event = ContainerPoweredOff →
      ∃ pub : BaseEvent, (dispatch ie update w).published = w.published ++ [pub] ∧
        pub.Ref = id ∧ pub.Event = ContainerPoweredOff ∧
        watch id pub = some ContainerPoweredOff) := by
  refine ⟨watch_isSome id ce, ?_, ?_⟩
  · intro h
    have h' := (watch_isSome id ce).not.mpr h
    simpa using h'
  · intro ie w c em update hem hc hid hrun he
    have hne : eventedState ie.Event c.State ≠ c.State := by
      rw [he, hrun]; decide
    have h := dispatch_EventManager ie w c em update hem hc hne
    refine ⟨{ Ref := c.ID, CreatedTime := ie.CreatedTime, Event := ie.Event,
              Detail := "Container " ++ c.ID ++ " " ++ ie.Event }, ?_, hid, he, ?_⟩
    · simp [World.published, h, hem, EventManager.Publish]
    · simp [watch, hid, he, ContainerStopped, ContainerPoweredOff]

/-- C8 at the container `c1`: the closure signals for the PoweredOff event
published for `c1`, ignores a stray event, and the dispatcher's publication
for the running `c1` is matched. -/
theorem watch_signals_witness :
    (watch "c1" (sampleLifecycleEvent ContainerPoweredOff)).isSome = true ∧
    watch "c1" strayEvent = none ∧
    (∃ pub : BaseEvent,
      (dispatch (sampleEvent ContainerPoweredOff) (UpdateResult.ok 7) sampleWorld).published =
        sampleWorld.published ++ [pub] ∧
      pub.Ref = "c1" ∧ pub.Event = ContainerPoweredOff ∧
      watch "c1" pub = some ContainerPoweredOff) :=
  ⟨(watch_signals "c1" (sampleLifecycleEvent ContainerPoweredOff)).1.mpr (by decide),
   (watch_signals "c1" strayEvent).2.1 (by decide),
   (watch_signals "c1" strayEvent).2.2 (sampleEvent ContainerPoweredOff) sampleWorld
     sampleContainer
     (EventManager.NewEventManager.Subscribe VmEventTopic "exec" Callback.eventCallback)
     (UpdateResult.ok 7) rfl (by decide) rfl rfl rfl⟩

/-- After `Unsubscribe(topic, key)` nothing is registered under that key. -/
theorem any_keyed_filter (topic key : String) (subs : List Subscription) :
    (subs.filter (fun s => !(EventManager.keyed topic key s))).any
      (EventManager.keyed topic key) = false := by
  induction subs with
  | nil => rfl
  | cons s rest ih =>
    by_cases h : EventManager.keyed topic key s = true
    · simp [List.filter_cons, h]
    · simp only [Bool.not_eq_true] at h
      simp [List.filter_cons, h]

/-- `Unsubscribe(topic, key)` leaves the registrations under other keys alone. -/
theorem any_keyed_filter_other (topic key topic' key' : String)
    (hne : (topic', key') ≠ (topic, key)) (subs : List Subscription) :
    (subs.filter (fun s => !(EventManager.keyed topic key s))).any
      (EventManager.keyed topic' key') = subs.any (EventManager.keyed topic' key') := by
  induction subs with
  | nil => rfl
  | cons s rest ih =>
    by_cases h : EventManager.keyed topic key s = true
    · have h' : EventManager.keyed topic' key' s = false := by
        simp only [EventManager.keyed, Bool.and_eq_true, beq_iff_eq] at h
        simp only [EventManager.keyed, Bool.and_eq_false_iff, beq_eq_false_iff_ne, ne_eq]
        by_contra hc
        push_neg at hc
        exact hne (by rw [← hc.1, ← hc.2, h.1, h.2])
      simp [List.filter_cons, h, h', ih]
    · simp only [Bool.not_eq_true] at h
      simp [List.filter_cons, h, ih]

/-- Unsubscribing a key under which nothing is registered changes nothing. -/
theorem filter_keyed_fresh (topic key : String) (subs : List Subscription)
    (hfresh : subs.any (EventManager.keyed topic key) = false) :
    subs.filter (fun s => !(EventManager.keyed topic key s)) = subs := by
  rw [List.filter_eq_self]
  intro s hs
  rw [List.any_eq_false] at hfresh
  simpa using hfresh s hs

/-- The subscriptions left by `Subscribe` followed by `Unsubscribe` of the
same topic and key. -/
theorem Subscribe_Unsubscribe (em : EventManager) (topic key : String) (cb : Callback) :
    (em.Subscribe topic key cb).Unsubscribe topic key =
      { em with subs := em.subs.filter (fun s => !(EventManager.keyed topic key s)) } := by
  have hk : EventManager.keyed topic key ⟨topic, key, cb⟩ = true := by
    simp [EventManager.keyed]
  simp [EventManager.Subscribe, EventManager.Unsubscribe, List.filter_cons, hk,
    List.filter_filter]

/-- C9: on both exit paths of `WaitForContainerStop(ctx, id)`, a matching event
delivered (returns nil) or the context completed first (returns an error
carrying `ctx.Err()`), the subscription the call registered is unregistered
again: nothing is left under its key, the registrations under every other key
are the ones before, and, the key being unique to the call (not registered
before it), the package state after the call, and so the set of subscriber
keys, equals the one before. -/
theorem WaitForContainerStop_unsubscribes (id : String) (addr : Nat)
    (delivered : List BaseEvent) (ctxErr : String) (w : World) :
    (w.Config.EventManager ≠ none →
      ((∃ ce ∈ delivered, (watch id ce).isSome = true) ∧
        (WaitForContainerStop id addr delivered ctxErr w).1 = Result.nil) ∨
      ((∀ ce ∈ delivered, watch id ce = none) ∧
        (WaitForContainerStop id addr delivered ctxErr w).1 =
          Result.error ("WaitForContainerStop(" ++ id ++ ") Error: " ++ ctxErr))) ∧
    (WaitForContainerStop id addr delivered ctxErr w).2.subscribed ContainerEventTopic
      (watcherKey id addr) = false ∧
    (∀ topic key : String, (topic, key) ≠ (ContainerEventTopic, watcherKey id addr) →
      (WaitForContainerStop id addr delivered ctxErr w).2.subscribed topic key =
        w.subscribed topic key) ∧
    (w.subscribed ContainerEventTopic (watcherKey id addr) = false →
      (WaitForContainerStop id addr delivered ctxErr w).2 = w) := by
  cases hem : w.Config.EventManager with
  | none =>
    refine ⟨fun h => absurd rfl h, ?_, ?_, ?_⟩ <;>
      simp [WaitForContainerStop, World.subscribed, hem]
  | some em =>
    refine ⟨fun _ => ?_, ?_, ?_, ?_⟩
    · cases hf : delivered.findSome? (watch id) with
      | none =>
        right
        refine ⟨?_, ?_⟩
        · intro ce hce
          exact (List.findSome?_eq_none_iff.mp hf) ce hce
        · simp [WaitForContainerStop, hem, hf]
      | some v =>
        left
        refine ⟨?_, ?_⟩
        · obtain ⟨ce, hce, hv⟩ := List.exists_of_findSome?_eq_some hf
          exact ⟨ce, hce, by simp [hv]⟩
        · simp [WaitForContainerStop, hem, hf]
    · simp only [WaitForContainerStop, hem, World.subscribed, Subscribe_Unsubscribe,
        EventManager.subscribed]
      exact any_keyed_filter _ _ _
    · intro topic key hne
      simp only [WaitForContainerStop, hem, World.subscribed, Subscribe_Unsubscribe,
        EventManager.subscribed]
      exact any_keyed_filter_other _ _ _ _ hne _
    · intro hfresh
      simp only [World.subscribed, hem, EventManager.subscribed] at hfresh
      simp only [WaitForContainerStop, hem, Subscribe_Unsubscribe,
        filter_keyed_fresh _ _ _ hfresh]
      obtain ⟨i, cfg, cs, st⟩ := w
      obtain ⟨a, b, c, d, e, f, g, h, k, l, m⟩ := cfg
      simp only at hem
      subst hem
      rfl

/-- C9 at the container `c1`, a closure at address 824634, and the bootstrapped
`sampleWorld`: with no event delivered the call returns the context's error,
with the PoweredOff event of `c1` delivered it returns nil, and either way the
package state is the one before the call. -/
theorem WaitForContainerStop_unsubscribes_witness :
    WaitForContainerStop "c1" 824634 [] "context deadline exceeded" sampleWorld =
      (Result.error "WaitForContainerStop(c1) Error: context deadline exceeded", sampleWorld) ∧
    WaitForContainerStop "c1" 824634 [strayEvent, sampleLifecycleEvent ContainerPoweredOff]
      "context deadline exceeded" sampleWorld = (Result.nil, sampleWorld) :=
  ⟨Prod.ext
    (((WaitForContainerStop_unsubscribes "c1" 824634 [] "context deadline exceeded"
      sampleWorld).1 (by decide)).elim (fun h => by simp at h) (fun h => h.2))
    ((WaitForContainerStop_unsubscribes "c1" 824634 [] "context deadline exceeded"
      sampleWorld).2.2.2 (by decide)),
   Prod.ext
    (((WaitForContainerStop_unsubscribes "c1" 824634
      [strayEvent, sampleLifecycleEvent ContainerPoweredOff] "context deadline exceeded"
      sampleWorld).1 (by decide)).elim (fun h => h.2)
      (fun h => absurd (h.1 (sampleLifecycleEvent ContainerPoweredOff) (by simp))
        (by decide)))
    ((WaitForContainerStop_unsubscribes "c1" 824634
      [strayEvent, sampleLifecycleEvent ContainerPoweredOff] "context deadline exceeded"
      sampleWorld).2.2.2 (by decide))⟩

/-! ## Bootstrap -/

/-- Once `initializer` has run its function, `Init` returns nil and leaves the
package state alone, whatever the session and the configuration source. -/
theorem Init_done (sess : Session) (source : DataSource) (w : World)
    (h : w.initializer = true) : Init sess source w = (Result.nil, w) := by
  simp [Init, h]

/-- The tail of the function handed to `initializer.Do` leaves the once-flag
alone. -/
theorem initNetwork_initializer (sess : Session) (w : World) :
    (initNetwork sess w).2.initializer = w.initializer := by
  unfold initNetwork
  split
  · rfl
  · dsimp only
    repeat' split
    all_goals rfl

/-- The middle of the function handed to `initializer.Do` leaves the once-flag
alone. -/
theorem initEvents_initializer (sess : Session) (w : World) :
    (initEvents sess w).2.initializer = w.initializer := by
  unfold initEvents
  split
  · rfl
  · rw [initNetwork_initializer]

/-- The function handed to `initializer.Do` leaves the once-flag alone. -/
theorem initOnce_initializer (sess : Session) (source : DataSource) (w : World) :
    (initOnce sess source w).2.initializer = w.initializer := by
  unfold initOnce
  dsimp only
  split
  · rfl
  · split
    · rfl
    · split
      · rfl
      · split
        · rw [initEvents_initializer]
        · rw [initEvents_initializer]
        · rfl

/-- After any call of `Init` the once-flag is set. -/
theorem Init_initializer (sess : Session) (source : DataSource) (w : World) :
    (Init sess source w).2.initializer = true := by
  unfold Init
  split
  · assumption
  · rw [initOnce_initializer]

/-- Every call of `Init` after the first returns nil and leaves the package
state as the first call left it: the initialization sequence is not run again,
and the result of the first call is not replayed. -/
theorem Init_later_call (sess sess' : Session) (source source' : DataSource) (w : World) :
    Init sess' source' (Init sess source w).2 = (Result.nil, (Init sess source w).2) :=
  Init_done sess' source' _ (Init_initializer sess source w)

/-- C3 fails on the code: with two compute resources configured the first call
of `Init` returns the singular-compute-resource error, and the second call,
which does not run the initialization sequence again, returns nil instead of
that error. -/
theorem Init_second_call_returns_nil :
    (Init sampleSession twoPoolSource freshWorld).1 =
      Result.error "expected singular compute resource element, found 2" ∧
    Init sampleSession twoPoolSource (Init sampleSession twoPoolSource freshWorld).2 =
      (Result.nil, (Init sampleSession twoPoolSource freshWorld).2) ∧
    (InitCalls [(sampleSession, twoPoolSource), (sampleSession, twoPoolSource),
      (sampleSession, onePoolSource)] freshWorld).1 =
      [Result.error "expected singular compute resource element, found 2", Result.nil,
       Result.nil] := by
  refine ⟨by decide, ?_, by decide⟩
  exact Init_later_call _ _ _ _ _

end exec
